import Mathlib

/-
Verification of the trailer tongue-weight calculator
(src/trailer_tongue_weight_app.py) against its specification.

The solver in the source is `compute_tongue_and_axle_loads(total_weight,
total_cg, axle_positions)`.  We embed it shallowly over ℚ (the exact
arithmetic that the Python float code approximates):

  * `n == 1`: `A1 = W * x_cg / x1; T = W - A1; return T, [A1]`.
    When `x1 == 0` the Python division raises `ZeroDivisionError`,
    modelled by the outcome `zeroDivisionError`.
  * `n == 2`: `np.linalg.solve([[1,1],[x1,x2]], [W, W*x_cg])`.
    For a nonsingular matrix this returns the unique solution of the
    2×2 system, embedded here in closed form (Cramer's rule); the
    lemmas `solve2_balances` and `solve2_unique` justify that the
    closed form is exactly the solution `np.linalg.solve` computes.
    When `x1 == x2` the matrix is singular and numpy raises
    `LinAlgError`, modelled by the outcome `linAlgError`.
  * any other length: no branch of the Python function matches and it
    falls off the end, returning Python `None`; modelled by the
    outcome `noneReturned`.

The percentage and warning logic of the app
(`tongue_pct = 100 * tongue_weight / total_weight if total_weight else 0`
followed by the `total_weight == 0` / `< 10` / `> 15` warning chain) is
embedded by `tongue_pct` and `classify`.
`combined_cg` is a direct transcription of the helper of the same name.
-/

namespace TrailerTongue

/-- Observable outcome of a call to `compute_tongue_and_axle_loads`:
either a returned pair `(tongue_weight, axle_loads)`, or one of the
ways the Python code fails to produce such a pair. -/
inductive SolveOutcome where
  | ok (tongue_weight : ℚ) (axle_loads : List ℚ)
  | zeroDivisionError
  | linAlgError
  | noneReturned
deriving DecidableEq, Repr

/-- Transcription of `combined_cg(w1, x1, w2, x2)` from the source:
returns `0` when `w1 + w2 == 0`, otherwise the weighted mean. -/
def combined_cg (w1 x1 w2 x2 : ℚ) : ℚ :=
  if w1 + w2 = 0 then 0 else (w1 * x1 + w2 * x2) / (w1 + w2)

/-- Exact solution of the 2×2 system `[[1,1],[x1,x2]] · r = [W, W*x_cg]`
(Cramer's rule), the system the source hands to `np.linalg.solve`. -/
def solve2 (W x_cg x1 x2 : ℚ) : ℚ × ℚ :=
  ((W * x2 - W * x_cg) / (x2 - x1), (W * x_cg - W * x1) / (x2 - x1))

/-- Embedding of `compute_tongue_and_axle_loads` from the source. -/
def compute_tongue_and_axle_loads (W x_cg : ℚ) (x_axles : List ℚ) :
    SolveOutcome :=
  match x_axles with
  | [x1] =>
      if x1 = 0 then SolveOutcome.zeroDivisionError
      else SolveOutcome.ok (W - W * x_cg / x1) [W * x_cg / x1]
  | [x1, x2] =>
      if x1 = x2 then SolveOutcome.linAlgError
      else
        SolveOutcome.ok (W - ((solve2 W x_cg x1 x2).1 + (solve2 W x_cg x1 x2).2))
          [(solve2 W x_cg x1 x2).1, (solve2 W x_cg x1 x2).2]
  | _ => SolveOutcome.noneReturned

/-- The tongue weight a returned outcome carries, if any. -/
def tongue_of (o : SolveOutcome) : Option ℚ :=
  match o with
  | SolveOutcome.ok T _ => some T
  | _ => none

/-- Transcription of
`tongue_pct = 100 * tongue_weight / total_weight if total_weight else 0`. -/
def tongue_pct (tongue_weight total_weight : ℚ) : ℚ :=
  if total_weight = 0 then 0 else 100 * tongue_weight / total_weight

/-- The four mutually exclusive messages of the warning chain. -/
inductive Classification where
  | zeroLoad
  | belowBand
  | aboveBand
  | withinBand
deriving DecidableEq, Repr

/-- Transcription of the warning chain:
`if total_weight == 0: ... elif tongue_pct < 10: ... elif tongue_pct > 15:
... else: ...`. -/
def classify (total_weight pct : ℚ) : Classification :=
  if total_weight = 0 then Classification.zeroLoad
  else if pct < 10 then Classification.belowBand
  else if pct > 15 then Classification.aboveBand
  else Classification.withinBand

/-- Moment of the returned axle loads about the hitch:
`sum(axle_loads[i] * axle_positions[i])`. -/
def axle_moment (As xs : List ℚ) : ℚ :=
  ((As.zip xs).map fun p => p.1 * p.2).sum

/-- The pair `solve2 W x_cg x1 x2` solves the system the source passes to
`np.linalg.solve`: the reactions sum to `W` and their moment is `W * x_cg`. -/
theorem solve2_balances (W x_cg x1 x2 : ℚ) (h : x1 ≠ x2) :
    (solve2 W x_cg x1 x2).1 + (solve2 W x_cg x1 x2).2 = W ∧
    x1 * (solve2 W x_cg x1 x2).1 + x2 * (solve2 W x_cg x1 x2).2 = W * x_cg := by
  have hx : x2 - x1 ≠ 0 := sub_ne_zero.mpr (Ne.symm h)
  constructor
  · simp only [solve2]
    field_simp
    ring
  · simp only [solve2]
    field_simp
    ring

/-- The system is nonsingular when `x1 ≠ x2`, so `solve2` gives the unique
solution — the one `np.linalg.solve` computes. -/
theorem solve2_unique (W x_cg x1 x2 r1 r2 : ℚ) (h : x1 ≠ x2)
    (hsum : r1 + r2 = W) (hmom : x1 * r1 + x2 * r2 = W * x_cg) :
    r1 = (solve2 W x_cg x1 x2).1 ∧ r2 = (solve2 W x_cg x1 x2).2 := by
  have hx : x2 - x1 ≠ 0 := sub_ne_zero.mpr (Ne.symm h)
  constructor
  · simp only [solve2]
    field_simp
    linear_combination x2 * hsum - hmom
  · simp only [solve2]
    field_simp
    linear_combination hmom - x1 * hsum

/-- C1 — Force balance: whenever `compute_tongue_and_axle_loads` succeeds
(returns a tongue weight `T` and axle loads `As`), `T + sum As = W`.  In the
exact arithmetic of this embedding the balance is an identity, hence in
particular within the spec's 1e-9 relative tolerance. -/
theorem force_balance (W x_cg : ℚ) (xs : List ℚ) (T : ℚ) (As : List ℚ)
    (h : compute_tongue_and_axle_loads W x_cg xs = SolveOutcome.ok T As) :
    T + As.sum = W := by
  match xs with
  | [] => simp [compute_tongue_and_axle_loads] at h
  | [x1] =>
      by_cases hx : x1 = 0
      · simp [compute_tongue_and_axle_loads, hx] at h
      · simp only [compute_tongue_and_axle_loads, if_neg hx,
          SolveOutcome.ok.injEq] at h
        obtain ⟨hT, hA⟩ := h
        subst hT
        subst hA
        simp
  | [x1, x2] =>
      by_cases hx : x1 = x2
      · simp [compute_tongue_and_axle_loads, hx] at h
      · simp only [compute_tongue_and_axle_loads, if_neg hx,
          SolveOutcome.ok.injEq] at h
        obtain ⟨hT, hA⟩ := h
        subst hT
        subst hA
        simp
  | x1 :: x2 :: x3 :: rest => simp [compute_tongue_and_axle_loads] at h

/-- Witness for C1 at scenario B: `W = 2000`, `x_cg = 100`, one axle at
`180`; the returned tongue `8000/9` and axle load `10000/9` sum to `2000`. -/
theorem force_balance_witness :
    (8000 : ℚ) / 9 + [(10000 : ℚ) / 9].sum = 2000 :=
  force_balance 2000 100 [180] (8000 / 9) [10000 / 9]
    (by norm_num [compute_tongue_and_axle_loads])

/-- C2 — Single-support formula: for one axle at `x1 ≠ 0` the solver returns
axle load `W * x_cg / x1` and tongue `W - W * x_cg / x1`; and in scenario B
(one load `{2000, 100}`, one support `[180]`) the axle load is
`10000/9 ≈ 1111.1`, the tongue `8000/9 ≈ 888.9`, the percentage
`400/9 ≈ 44.4 %` (fraction `≈ 0.444`), classified above the band. -/
theorem single_support_formula :
    (∀ W x_cg x1 : ℚ, x1 ≠ 0 →
      compute_tongue_and_axle_loads W x_cg [x1] =
        SolveOutcome.ok (W - W * x_cg / x1) [W * x_cg / x1]) ∧
    compute_tongue_and_axle_loads 2000 100 [180] =
      SolveOutcome.ok (8000 / 9) [10000 / 9] ∧
    tongue_pct (8000 / 9) 2000 = 400 / 9 ∧
    classify 2000 (400 / 9) = Classification.aboveBand ∧
    |(10000 : ℚ) / 9 - 1111.1| < 1 / 10 ∧
    |(8000 : ℚ) / 9 - 888.9| < 1 / 10 ∧
    |(8000 : ℚ) / 9 / 2000 - 0.444| < 1 / 1000 := by
  refine ⟨fun W x_cg x1 hx => by simp [compute_tongue_and_axle_loads, hx],
    ?_, ?_, ?_, ?_, ?_, ?_⟩
  · norm_num [compute_tongue_and_axle_loads]
  · norm_num [tongue_pct]
  · norm_num [classify]
  · rw [abs_lt]
    norm_num
  · rw [abs_lt]
    norm_num
  · rw [abs_lt]
    norm_num

/-- Witness for C2's general formula at `W = 1000`, `x_cg = 250`,
axle at `50`. -/
theorem single_support_formula_witness :
    compute_tongue_and_axle_loads 1000 250 [50] =
      SolveOutcome.ok (1000 - 1000 * 250 / 50) [1000 * 250 / 50] :=
  single_support_formula.1 1000 250 50 (by norm_num)

/-- C3 — Moment balance: whenever the solver succeeds (one or two axles),
the returned axle loads satisfy `sum As[i] * xs[i] = W * x_cg`.  Exact in
this embedding, hence within tolerance. -/
theorem moment_balance (W x_cg : ℚ) (xs : List ℚ) (T : ℚ) (As : List ℚ)
    (h : compute_tongue_and_axle_loads W x_cg xs = SolveOutcome.ok T As) :
    axle_moment As xs = W * x_cg := by
  match xs with
  | [] => simp [compute_tongue_and_axle_loads] at h
  | [x1] =>
      by_cases hx : x1 = 0
      · simp [compute_tongue_and_axle_loads, hx] at h
      · simp only [compute_tongue_and_axle_loads, if_neg hx,
          SolveOutcome.ok.injEq] at h
        obtain ⟨hT, hA⟩ := h
        subst hA
        simp [axle_moment]
        field_simp
  | [x1, x2] =>
      by_cases hx : x1 = x2
      · simp [compute_tongue_and_axle_loads, hx] at h
      · simp only [compute_tongue_and_axle_loads, if_neg hx,
          SolveOutcome.ok.injEq] at h
        obtain ⟨hT, hA⟩ := h
        subst hA
        have := (solve2_balances W x_cg x1 x2 hx).2
        simp [axle_moment]
        linarith
  | x1 :: x2 :: x3 :: rest => simp [compute_tongue_and_axle_loads] at h

/-- Witness for C3 at scenario B: the single axle load `10000/9` at
position `180` has moment `2000 * 100`. -/
theorem moment_balance_witness :
    axle_moment [(10000 : ℚ) / 9] [(180 : ℚ)] = 2000 * 100 :=
  moment_balance 2000 100 [180] (8000 / 9) [10000 / 9]
    (by norm_num [compute_tongue_and_axle_loads])

/-- C4 — With two distinct axles the returned tongue weight is exactly zero,
whatever the load CG: the solved system forces the axle loads to sum to `W`,
so `T = W - (r1 + r2) = 0`. -/
theorem two_axle_tongue_zero (W x_cg x1 x2 : ℚ) (h : x1 ≠ x2) :
    tongue_of (compute_tongue_and_axle_loads W x_cg [x1, x2]) = some 0 := by
  have hsum := (solve2_balances W x_cg x1 x2 h).1
  simp only [compute_tongue_and_axle_loads, if_neg h, tongue_of,
    Option.some.injEq]
  linarith

/-- Witness for C4 at scenario A: `W = 11305`, `x_cg = 139`, axles at
`134` and `170`; the tongue weight is zero. -/
theorem two_axle_tongue_zero_witness :
    tongue_of (compute_tongue_and_axle_loads 11305 139 [134, 170]) = some 0 :=
  two_axle_tongue_zero 11305 139 134 170 (by norm_num)

/-- C5 counterexample, at the spec's scenario C (`W = 9000`, `x_cg = 50`,
supports `[100, 140, 180]`): with three axle positions the function matches
no branch and returns Python `None`; in particular it produces no tongue
weight at all, so it does not return
`overhang_reaction = 9000 - 9000 * 50 / 140 ≈ 5785.7` as the claim states. -/
theorem three_axles_counterexample :
    compute_tongue_and_axle_loads 9000 50 [100, 140, 180] =
        SolveOutcome.noneReturned ∧
    tongue_of (compute_tongue_and_axle_loads 9000 50 [100, 140, 180]) =
        none := by
  constructor <;> rfl

/-- C5 (amended) — With three or more axle positions the source function
falls off the end of its `if n == 1 / elif n == 2` chain and returns
`None`: no centroid computation, no overhang reaction, no per-axle split. -/
theorem three_axles_none (W x_cg : ℚ) (xs : List ℚ) (h : 3 ≤ xs.length) :
    compute_tongue_and_axle_loads W x_cg xs = SolveOutcome.noneReturned := by
  match xs with
  | [] => simp at h
  | [x1] => simp at h
  | [x1, x2] => simp at h
  | x1 :: x2 :: x3 :: rest => rfl

/-- Witness for C5's amended theorem at three axles `[1, 2, 3]`. -/
theorem three_axles_none_witness :
    compute_tongue_and_axle_loads 10 5 [1, 2, 3] =
      SolveOutcome.noneReturned :=
  three_axles_none 10 5 [1, 2, 3] (by simp)

/-- C6 counterexample, at `W = 11305`, `x_cg = 139`, supports
`[100, 100]`: the source performs no validation; the singular 2×2 system
makes `np.linalg.solve` raise `LinAlgError`, which propagates to the caller.
There is no typed `InvalidInput` value anywhere in the code, so the claimed
validated rejection does not happen. -/
theorem duplicate_support_counterexample :
    compute_tongue_and_axle_loads 11305 139 [100, 100] =
      SolveOutcome.linAlgError := rfl

/-- C6 (amended) — For any two axles at the same exact position the solver
reaches `np.linalg.solve` with a singular matrix and the `LinAlgError`
raises through; no validation step precedes the solve. -/
theorem duplicate_support_raises (W x_cg p : ℚ) :
    compute_tongue_and_axle_loads W x_cg [p, p] =
      SolveOutcome.linAlgError := by
  simp [compute_tongue_and_axle_loads]

/-- C7 counterexample, at the spec's example `W = 1000`, `x_cg = 50`,
support `[0.0]`: the division `W * x_cg / x1` raises `ZeroDivisionError`;
there is no typed `DegenerateGeometry` value anywhere in the code. -/
theorem zero_position_counterexample :
    compute_tongue_and_axle_loads 1000 50 [0] =
      SolveOutcome.zeroDivisionError := rfl

/-- C7 (amended) — For a single axle at position `0` the division by the
axle position raises `ZeroDivisionError` (an untyped exception), for every
load configuration. -/
theorem zero_position_raises (W x_cg : ℚ) :
    compute_tongue_and_axle_loads W x_cg [0] =
      SolveOutcome.zeroDivisionError := by
  simp [compute_tongue_and_axle_loads]

/-- C8 counterexample: with zero total load the source computes
`tongue_pct = 100 * tongue_weight / total_weight if total_weight else 0`,
i.e. the value `0` — a defined number, not `None`/NaN as the claim states. -/
theorem zero_load_pct_counterexample : tongue_pct 0 0 = 0 := rfl

/-- C8 (amended) — When the total load is zero and the solver succeeds, the
tongue weight is `0` and every axle load is `0`; but the reported
percentage is the value `0` (the conditional expression's `else 0` branch),
not an undefined/None marker, and the zero-load warning branch fires
(`classify` yields `zeroLoad`) instead of a band classification. -/
theorem zero_load_result (x_cg : ℚ) (xs : List ℚ) (T : ℚ) (As : List ℚ)
    (h : compute_tongue_and_axle_loads 0 x_cg xs = SolveOutcome.ok T As) :
    T = 0 ∧ As = List.replicate xs.length 0 ∧ tongue_pct T 0 = 0 ∧
      classify 0 (tongue_pct T 0) = Classification.zeroLoad := by
  have hTA : T = 0 ∧ As = List.replicate xs.length 0 := by
    match xs with
    | [] => simp [compute_tongue_and_axle_loads] at h
    | [x1] =>
        by_cases hx : x1 = 0
        · simp [compute_tongue_and_axle_loads, hx] at h
        · simp only [compute_tongue_and_axle_loads, if_neg hx,
            SolveOutcome.ok.injEq] at h
          obtain ⟨hT, hA⟩ := h
          subst hT
          subst hA
          norm_num [List.replicate]
    | [x1, x2] =>
        by_cases hx : x1 = x2
        · simp [compute_tongue_and_axle_loads, hx] at h
        · simp only [compute_tongue_and_axle_loads, if_neg hx,
            SolveOutcome.ok.injEq] at h
          obtain ⟨hT, hA⟩ := h
          subst hT
          subst hA
          norm_num [solve2, List.replicate]
    | x1 :: x2 :: x3 :: rest => simp [compute_tongue_and_axle_loads] at h
  exact ⟨hTA.1, hTA.2, rfl, rfl⟩

/-- Witness for C8's amended theorem at `x_cg = 50`, one axle at `180`. -/
theorem zero_load_result_witness :
    (0 : ℚ) = 0 ∧ [(0 : ℚ)] = List.replicate [(180 : ℚ)].length 0 ∧
      tongue_pct 0 0 = 0 ∧
      classify 0 (tongue_pct 0 0) = Classification.zeroLoad :=
  zero_load_result 50 [180] 0 [0]
    (by norm_num [compute_tongue_and_axle_loads])

/-- C9 — Band classification for nonzero total load: the warning chain
compares the percentage `100 * f` against `10` and `15`, which is exactly
the fraction thresholds `0.10` and `0.15`; the boundaries themselves fall
in the within-band `else` branch, and the result depends only on the
percentage once the load is nonzero. -/
theorem band_classification (W f : ℚ) (hW : W ≠ 0) :
    (classify W (100 * f) = Classification.belowBand ↔ f < 1 / 10) ∧
    (classify W (100 * f) = Classification.aboveBand ↔ 3 / 20 < f) ∧
    (classify W (100 * f) = Classification.withinBand ↔
      1 / 10 ≤ f ∧ f ≤ 3 / 20) ∧
    classify W (100 * (1 / 10)) = Classification.withinBand ∧
    classify W (100 * (3 / 20)) = Classification.withinBand := by
  have e1 : (100 * f < 10) ↔ f < 1 / 10 := by
    constructor <;> intro <;> linarith
  have e2 : (100 * f > 15) ↔ 3 / 20 < f := by
    constructor <;> intro <;> linarith
  simp only [classify, if_neg hW, e1, e2]
  refine ⟨?_, ?_, ?_, by norm_num, by norm_num⟩ <;>
    split_ifs with ha hb <;> simp_all
  linarith

/-- Witness for C9 at `W = 2000`, fraction `1/8 = 12.5 %`: within band. -/
theorem band_classification_witness :
    classify 2000 (100 * (1 / 8)) = Classification.withinBand :=
  (band_classification 2000 (1 / 8) (by norm_num)).2.2.1.mpr (by norm_num)

/-- C10 — `combined_cg` is total: it returns the weighted mean when the
weights do not sum to zero, and `0` (instead of dividing by zero) when they
do, so the downstream solver receives CG `0` for any zero-total
configuration. -/
theorem combined_cg_total (w1 x1 w2 x2 : ℚ) :
    (w1 + w2 ≠ 0 →
      combined_cg w1 x1 w2 x2 = (w1 * x1 + w2 * x2) / (w1 + w2)) ∧
    (w1 + w2 = 0 → combined_cg w1 x1 w2 x2 = 0) := by
  constructor <;> intro h <;> simp [combined_cg, h]

/-- Witness for C10: two nonzero weights that cancel give CG `0`; a
nonzero total gives the weighted mean. -/
theorem combined_cg_total_witness :
    combined_cg 5 3 (-5) 7 = 0 ∧
    combined_cg 2 100 0 0 = (2 * 100 + 0 * 0) / (2 + 0) :=
  ⟨(combined_cg_total 5 3 (-5) 7).2 (by norm_num),
   (combined_cg_total 2 100 0 0).1 (by norm_num)⟩

end TrailerTongue
